import Mathlib

/-!
Shallow embedding of the self-healing-infra core:
`src/lambda/functions/notify/main.py` (event normalization, severity
classification, multi-channel notification fanout) and
`src/lambda/functions/trigger_remediation/main.py` (alarm routing and the
four remediation actions), together with theorems settling the frozen
claims about those functions.

External collaborators (autoscaling, SSM, SNS, SES, webhooks) are modelled
as explicit inputs: the fleet lookup result is a parameter, per-instance
command outcomes and per-channel transport outcomes are oracles, and the
calls a handler issues are recorded in an `Effect` trace.
-/

/-! ## String helpers: Python `str.lower()` and the `in` substring test -/

/-- `needle.isPrefixOf hay` as an executable Bool over char lists. -/
def startsWithChars : List Char → List Char → Bool
  | [], _ => true
  | _ :: _, [] => false
  | a :: as, b :: bs => a == b && startsWithChars as bs

/-- Substring test over char lists: does `needle` occur inside `hay`? -/
def hasSubChars (needle : List Char) : List Char → Bool
  | [] => startsWithChars needle []
  | b :: bs => startsWithChars needle (b :: bs) || hasSubChars needle bs

/-- Python `needle in hay` for strings. -/
def strContains (hay needle : String) : Bool :=
  hasSubChars needle.data hay.data

/-- Python `s.lower()` (ASCII case folding, as `Char.toLower`). -/
def lowerStr (s : String) : String :=
  String.mk (s.data.map Char.toLower)

/-! ## Severity classifier (`determine_severity_from_message`, notify/main.py:135-148) -/

def criticalWords : List String := ["critical", "down", "failed", "failure"]
def errorWords : List String := ["error", "problem", "issue"]
def warningWords : List String := ["warning", "warn", "degraded"]
def successWords : List String := ["success", "resolved", "recovered", "healthy"]

/-- `determine_severity_from_message`: case-insensitive substring match against
four keyword tiers in priority order. -/
def determine_severity_from_message (message : String) : String :=
  let messageLower := lowerStr message
  if criticalWords.any (fun w => strContains messageLower w) then "critical"
  else if errorWords.any (fun w => strContains messageLower w) then "error"
  else if warningWords.any (fun w => strContains messageLower w) then "warning"
  else if successWords.any (fun w => strContains messageLower w) then "success"
  else "info"

/-- The five defined severity values of the data model. -/
def severityValues : List String := ["critical", "error", "warning", "info", "success"]

/-! ## Notification data model and event normalization (notify/main.py:72-132) -/

/-- Default of the `PROJECT_NAME` environment variable. -/
def PROJECT_NAME : String := "self-healing-infra"

/-- The JSON-decoded body of `record['Sns']['Message']`: only the `Subject`
and `Message` keys are read by `parse_sns_message` (absent keys are `none`). -/
structure SnsMsg where
  subject : Option String
  message : Option String
deriving DecidableEq

/-- One entry of the inbound `Records` list. -/
structure SnsRecord where
  eventSource : String
  snsMessage : SnsMsg
deriving DecidableEq

/-- The `metadata` field of a notification: either a plain key/value mapping,
or the whole source SNS message / CloudWatch alarm dict that produced it. -/
inductive Meta where
  | given (kv : List (String × String))
  | fromSns (m : SnsMsg)
  | fromAlarm (alarmName : String) (newStateValue newStateReason : Option String)
deriving DecidableEq

/-- Canonical notification record built by `parse_notification`. -/
structure Notification where
  title : String
  message : String
  severity : String
  timestamp : String
  source : String
  metadata : Meta
deriving DecidableEq

/-- The five keys a parse helper returns; `notification.update(...)` replaces
exactly these fields and keeps `timestamp`. -/
structure NoteUpdate where
  title : String
  message : String
  severity : String
  source : String
  metadata : Meta

/-- Python `notification.update(parsed)` for the five returned keys. -/
def applyUpdate (n : Notification) (u : NoteUpdate) : Notification :=
  { n with title := u.title, message := u.message, severity := u.severity,
           source := u.source, metadata := u.metadata }

/-- `parse_sns_message` (notify/main.py:107-115). -/
def parse_sns_message (m : SnsMsg) : NoteUpdate :=
  { title := m.subject.getD "SNS Notification"
    message := m.message.getD ""
    severity := determine_severity_from_message (m.message.getD "")
    source := "sns"
    metadata := .fromSns m }

/-- `parse_cloudwatch_alarm` (notify/main.py:118-132). -/
def parse_cloudwatch_alarm (alarmName : String)
    (newStateValue newStateReason : Option String) : NoteUpdate :=
  let newState := newStateValue.getD "UNKNOWN"
  let reason := newStateReason.getD ""
  { title := "CloudWatch Alarm: " ++ alarmName
    message := "State: " ++ newState ++ "\nReason: " ++ reason
    severity := if newState == "ALARM" then "critical" else "success"
    source := "cloudwatch"
    metadata := .fromAlarm alarmName newStateValue newStateReason }

/-- The dispatch shape of an inbound event, following the `if/elif` chain of
`parse_notification`: a `Records` key wins, else a `message` key, else an
`AlarmName` key, else none of the three. Optional constructor arguments are
keys that may be absent from the payload. -/
inductive InboundEvent where
  | records (recs : List SnsRecord)
  | direct (message : String) (severity title source : Option String)
      (metadata : Option (List (String × String)))
  | rawAlarm (alarmName : String) (newStateValue newStateReason : Option String)
  | other
deriving DecidableEq

/-- `parse_notification` (notify/main.py:72-104); `now` stands for the
`datetime.utcnow().isoformat() + 'Z'` timestamp taken at entry. -/
def parse_notification (event : InboundEvent) (now : String) : Notification :=
  let base : Notification :=
    { title := "", message := "", severity := "info", timestamp := now,
      source := "lambda", metadata := .given [] }
  match event with
  | .records recs =>
      recs.foldl
        (fun acc r =>
          if r.eventSource == "aws:sns" then applyUpdate acc (parse_sns_message r.snsMessage)
          else acc)
        base
  | .direct message severity title source metadata =>
      { base with
          message := message
          severity := severity.getD "info"
          title := title.getD (PROJECT_NAME ++ " Notification")
          source := source.getD "direct"
          metadata := .given (metadata.getD []) }
  | .rawAlarm alarmName newStateValue newStateReason =>
      applyUpdate base (parse_cloudwatch_alarm alarmName newStateValue newStateReason)
  | .other => base

/-! ## Notification fanout (notify/main.py:151-456)

Each `send_*_notification` wraps its delivery in `try/except`: the transport
outcome is modelled as `Except String String` (`.ok response` = the HTTP/SDK
call returned, `.error e` = it raised with message `e`), and every function
totalizes that outcome into a `ChannelResult` instead of raising. -/

/-- Result record for one channel: `status` is the `'status'` key of the dict
the Python function returns, `detail` its accompanying value
(`'response'`/`'messageId'` on success, `'error'` on error, `'reason'` on skip). -/
structure ChannelResult where
  status : String
  detail : String
deriving DecidableEq

/-- Channel configuration: the environment variables read at module load;
Python truthiness means a channel is configured iff its string is nonempty. -/
structure ChannelConfig where
  slackWebhookUrl : String
  discordWebhookUrl : String
  teamsWebhookUrl : String
  pagerdutyApiKey : String
  pagerdutyRoutingKey : String
  snsTopicArn : String
  defaultEmail : String

/-- One transport outcome per channel for a single fanout call. -/
structure Outcomes where
  slack : Except String String
  discord : Except String String
  teams : Except String String
  pagerduty : Except String String
  sns : Except String String
  email : Except String String

/-- `send_slack_notification` (notify/main.py:184-238). -/
def send_slack_notification (_n : Notification) (transport : Except String String) :
    ChannelResult :=
  match transport with
  | .ok r => { status := "success", detail := r }
  | .error e => { status := "error", detail := "Error sending Slack notification: " ++ e }

/-- `send_discord_notification` (notify/main.py:241-281). -/
def send_discord_notification (_n : Notification) (transport : Except String String) :
    ChannelResult :=
  match transport with
  | .ok r => { status := "success", detail := r }
  | .error e => { status := "error", detail := "Error sending Discord notification: " ++ e }

/-- `send_teams_notification` (notify/main.py:284-321). -/
def send_teams_notification (_n : Notification) (transport : Except String String) :
    ChannelResult :=
  match transport with
  | .ok r => { status := "success", detail := r }
  | .error e => { status := "error", detail := "Error sending Teams notification: " ++ e }

/-- `send_pagerduty_notification` (notify/main.py:324-369): severities outside
`['critical', 'error']` are skipped before any delivery attempt. -/
def send_pagerduty_notification (n : Notification) (transport : Except String String) :
    ChannelResult :=
  if n.severity == "critical" || n.severity == "error" then
    match transport with
    | .ok r => { status := "success", detail := r }
    | .error e => { status := "error", detail := "Error sending PagerDuty notification: " ++ e }
  else
    { status := "skipped", detail := "non-critical event" }

/-- `send_sns_notification` (notify/main.py:372-398). -/
def send_sns_notification (_n : Notification) (transport : Except String String) :
    ChannelResult :=
  match transport with
  | .ok r => { status := "success", detail := r }
  | .error e => { status := "error", detail := "Error sending SNS notification: " ++ e }

/-- `send_email_notification` (notify/main.py:401-456). -/
def send_email_notification (_n : Notification) (transport : Except String String) :
    ChannelResult :=
  match transport with
  | .ok r => { status := "success", detail := r }
  | .error e => { status := "error", detail := "Error sending email notification: " ++ e }

/-- `send_notifications` (notify/main.py:151-181): the `results` dict in
insertion order; a channel whose configuration is absent contributes no entry. -/
def send_notifications (cfg : ChannelConfig) (n : Notification) (o : Outcomes) :
    List (String × ChannelResult) :=
  (if cfg.slackWebhookUrl != "" then [("slack", send_slack_notification n o.slack)] else []) ++
  (if cfg.discordWebhookUrl != "" then [("discord", send_discord_notification n o.discord)] else []) ++
  (if cfg.teamsWebhookUrl != "" then [("teams", send_teams_notification n o.teams)] else []) ++
  (if cfg.pagerdutyApiKey != "" && cfg.pagerdutyRoutingKey != "" then
    [("pagerduty", send_pagerduty_notification n o.pagerduty)] else []) ++
  (if cfg.snsTopicArn != "" then [("sns", send_sns_notification n o.sns)] else []) ++
  (if cfg.defaultEmail != "" then [("email", send_email_notification n o.email)] else [])

/-- The channel names present in a fanout result, a function of the
configuration alone. -/
def channelKeys (cfg : ChannelConfig) : List String :=
  (if cfg.slackWebhookUrl != "" then ["slack"] else []) ++
  (if cfg.discordWebhookUrl != "" then ["discord"] else []) ++
  (if cfg.teamsWebhookUrl != "" then ["teams"] else []) ++
  (if cfg.pagerdutyApiKey != "" && cfg.pagerdutyRoutingKey != "" then ["pagerduty"] else []) ++
  (if cfg.snsTopicArn != "" then ["sns"] else []) ++
  (if cfg.defaultEmail != "" then ["email"] else [])

/-! ## Remediation trigger (trigger_remediation/main.py)

The handlers interact with the autoscaling, SSM, EC2 and SNS collaborators;
each call a handler issues is recorded as an `Effect` in order. The result of
`describe_auto_scaling_groups` is the `AsgLookupResult` parameter; SSM
`send_command` outcomes and EC2 instance health are oracles. -/

/-- One member of `AutoScalingGroups[0]['Instances']`. -/
structure AsgMember where
  instanceId : String
  lifecycleState : String
deriving DecidableEq

/-- The fields of `AutoScalingGroups[0]` read by the handlers. -/
structure AsgSnapshot where
  desiredCapacity : Nat
  maxSize : Nat
  instances : List AsgMember
deriving DecidableEq

/-- Outcome of `describe_auto_scaling_groups([ASG_NAME])`: the call raised
(`err e`), returned an empty `AutoScalingGroups` list (`notFound`), or returned
a group (`found`). -/
inductive AsgLookupResult where
  | err (e : String)
  | notFound
  | found (asg : AsgSnapshot)
deriving DecidableEq

/-- A collaborator call issued by a handler, in issue order. `sendCommand`
records the SSM `send_command` target, command list and whether the call
returned (`ok = true`) or raised (the exception is caught and logged). -/
inductive Effect where
  | describeAsg
  | setDesiredCapacity (capacity : Nat)
  | sendCommand (instanceId : String) (commands : List String) (ok : Bool)
  | describeInstanceStatus (instanceId : String)
  | terminateInstance (instanceId : String) (shouldDecrementDesiredCapacity : Bool)
  | notify (message : String)
deriving DecidableEq

/-- The `set_desired_capacity` values of a trace. -/
def mutations (t : List Effect) : List Nat :=
  t.filterMap fun e => match e with
    | .setDesiredCapacity c => some c
    | _ => none

/-- The `send_notification` messages of a trace. -/
def notifs (t : List Effect) : List String :=
  t.filterMap fun e => match e with
    | .notify m => some m
    | _ => none

/-- The SSM `send_command` target instances of a trace, raising or not. -/
def commandTargets (t : List Effect) : List String :=
  t.filterMap fun e => match e with
    | .sendCommand i _ _ => some i
    | _ => none

/-- `get_asg_instances` (trigger_remediation/main.py:234-251): in-service
instance ids; `[]` when the group list is empty or the lookup raised. -/
def get_asg_instances (lookup : AsgLookupResult) : List String :=
  match lookup with
  | .err _ => []
  | .notFound => []
  | .found asg =>
      (asg.instances.filter fun i => i.lifecycleState == "InService").map
        fun i => i.instanceId

/-- Notification text of the scale-up branch of `handle_high_cpu`. -/
def scaleUpMsg (asgName : String) (oldCapacity newCapacity : Nat) : String :=
  "Remediation: Scaled up " ++ asgName ++ " from " ++ toString oldCapacity ++
    " to " ++ toString newCapacity ++ " instances due to high CPU"

/-- Notification text of the at-maximum branch of `handle_high_cpu`. -/
def atMaxMsg (asgName : String) : String :=
  "Alert: High CPU detected but ASG " ++ asgName ++ " already at maximum capacity"

/-- `handle_high_cpu` (trigger_remediation/main.py:81-119): a raised describe
call is caught by the outer `except` and reported; an empty group list returns
silently; otherwise scale up by one bounded by `MaxSize`, or report
at-maximum. -/
def handle_high_cpu (lookup : AsgLookupResult) (asgName : String) : List Effect :=
  match lookup with
  | .err e => [.describeAsg, .notify ("Error in high CPU remediation: " ++ e)]
  | .notFound => [.describeAsg]
  | .found asg =>
      if asg.desiredCapacity < asg.maxSize then
        let newCapacity := min (asg.desiredCapacity + 1) asg.maxSize
        [.describeAsg, .setDesiredCapacity newCapacity,
         .notify (scaleUpMsg asgName asg.desiredCapacity newCapacity)]
      else
        [.describeAsg, .notify (atMaxMsg asgName)]

/-- The shell commands of the clear-memory-cache SSM document parameters. -/
def clearCacheCommands : List String :=
  ["echo \"Clearing memory caches...\"",
   "sync",
   "echo 1 > /proc/sys/vm/drop_caches || true",
   "echo \"Cache cleared\""]

/-- The shell commands of the disk-cleanup SSM document parameters. -/
def cleanDiskCommands : List String :=
  ["echo \"Cleaning disk space...\"",
   "find /tmp -type f -atime +7 -delete || true",
   "find /var/log -type f -name \"*.log.*\" -mtime +7 -delete || true",
   "journalctl --vacuum-time=7d || true",
   "echo \"Disk cleanup completed\""]

/-- Summary notification text of `handle_high_memory`. -/
def clearCacheSummaryMsg (count : Nat) : String :=
  "Remediation: Cleared memory caches on " ++ toString count ++
    " instances due to high memory usage"

/-- Summary notification text of `handle_high_disk`. -/
def cleanDiskSummaryMsg (count : Nat) : String :=
  "Remediation: Cleaned disk space on " ++ toString count ++ " instances"

/-- `handle_high_memory` (trigger_remediation/main.py:122-162): per-instance
`send_command` failures (`cmdOk i = false`) are caught and skipped; an empty
instance list returns before the loop and the summary notification. -/
def handle_high_memory (lookup : AsgLookupResult) (cmdOk : String → Bool) : List Effect :=
  let instances := get_asg_instances lookup
  .describeAsg ::
    (if instances.isEmpty then []
     else
       (instances.map fun i => Effect.sendCommand i clearCacheCommands (cmdOk i)) ++
         [.notify (clearCacheSummaryMsg instances.length)])

/-- `handle_high_disk` (trigger_remediation/main.py:165-200): like
`handle_high_memory` but with no empty-list early return — the summary
notification is sent even over zero instances. -/
def handle_high_disk (lookup : AsgLookupResult) (cmdOk : String → Bool) : List Effect :=
  let instances := get_asg_instances lookup
  .describeAsg ::
    ((instances.map fun i => Effect.sendCommand i cleanDiskCommands (cmdOk i)) ++
      [.notify (cleanDiskSummaryMsg instances.length)])

/-- The per-instance body of `handle_unhealthy_targets`: `health i` is the
head of `describe_instance_status(...)['InstanceStatuses']` as an
(instance status, system status) pair, `none` when that list is empty. -/
def cullStep (health : String → Option (String × String)) (i : String) : List Effect :=
  .describeInstanceStatus i ::
    match health i with
    | none => []
    | some (instanceStatus, systemStatus) =>
        if instanceStatus != "ok" || systemStatus != "ok" then
          [.terminateInstance i false,
           .notify ("Remediation: Terminated unhealthy instance " ++ i)]
        else []

/-- `handle_unhealthy_targets` (trigger_remediation/main.py:203-231). -/
def handle_unhealthy_targets (lookup : AsgLookupResult)
    (health : String → Option (String × String)) : List Effect :=
  .describeAsg :: List.flatten ((get_asg_instances lookup).map (cullStep health))

/-- `process_alarm` (trigger_remediation/main.py:52-78): skip non-ALARM
states, else dispatch on case-insensitive substring match of the alarm name in
the fixed `if/elif` order, else send the no-remediation advisory. -/
def process_alarm (asgName alarmName newState : String) (lookup : AsgLookupResult)
    (cmdOk : String → Bool) (health : String → Option (String × String)) : List Effect :=
  if newState != "ALARM" then []
  else if strContains (lowerStr alarmName) "cpu-utilization-high" then
    handle_high_cpu lookup asgName
  else if strContains (lowerStr alarmName) "memory-utilization-high" then
    handle_high_memory lookup cmdOk
  else if strContains (lowerStr alarmName) "disk-utilization-high" then
    handle_high_disk lookup cmdOk
  else if strContains (lowerStr alarmName) "unhealthy-targets" then
    handle_unhealthy_targets lookup health
  else
    [.notify ("Alert: " ++ alarmName ++ " triggered but no remediation configured")]

/-! ## Helper lemmas -/

theorem determine_severity_mem (message : String) :
    determine_severity_from_message message ∈ severityValues := by
  simp only [determine_severity_from_message]
  split_ifs <;> simp [severityValues]

theorem notifs_append (a b : List Effect) : notifs (a ++ b) = notifs a ++ notifs b :=
  List.filterMap_append ..

theorem commandTargets_append (a b : List Effect) :
    commandTargets (a ++ b) = commandTargets a ++ commandTargets b :=
  List.filterMap_append ..

theorem notifs_sendCommands (l : List String) (cmds : List String) (cmdOk : String → Bool) :
    notifs (l.map fun i => Effect.sendCommand i cmds (cmdOk i)) = [] := by
  induction l with
  | nil => rfl
  | cons a t ih => simp [notifs]

theorem commandTargets_sendCommands (l : List String) (cmds : List String)
    (cmdOk : String → Bool) :
    commandTargets (l.map fun i => Effect.sendCommand i cmds (cmdOk i)) = l := by
  induction l with
  | nil => rfl
  | cons a t ih => simpa [commandTargets] using ih

/-! ## Claim theorems -/

/-- Claim C1: on a successful fleet lookup, `handle_high_cpu` issues exactly one
`set_desired_capacity(current+1)` call and one old-to-new notification when the
current desired capacity is strictly below the maximum (the new value never
exceeding the maximum), and issues no capacity mutation and exactly one
advisory notification otherwise. -/
theorem scaleout_single_step_bounded (asg : AsgSnapshot) (asgName : String) :
    mutations (handle_high_cpu (.found asg) asgName) =
      (if asg.desiredCapacity < asg.maxSize then [asg.desiredCapacity + 1] else []) ∧
    (mutations (handle_high_cpu (.found asg) asgName)).all
      (fun c => decide (c ≤ asg.maxSize)) = true ∧
    notifs (handle_high_cpu (.found asg) asgName) =
      [if asg.desiredCapacity < asg.maxSize then
         scaleUpMsg asgName asg.desiredCapacity (asg.desiredCapacity + 1)
       else atMaxMsg asgName] := by
  by_cases h : asg.desiredCapacity < asg.maxSize
  · have hmin : min (asg.desiredCapacity + 1) asg.maxSize = asg.desiredCapacity + 1 := by
      omega
    have hle : asg.desiredCapacity + 1 ≤ asg.maxSize := by omega
    refine ⟨?_, ?_, ?_⟩ <;> simp [handle_high_cpu, mutations, notifs, h, hmin, hle]
  · refine ⟨?_, ?_, ?_⟩ <;> simp [handle_high_cpu, mutations, notifs, h]

/-- Claim C2: the severity classifier is a total function of the message text
yielding one of the five defined values, matching the four keyword tiers
case-insensitively in strict priority order; in particular any message
containing a critical-tier keyword (e.g. one also containing a success-tier
keyword) classifies as `critical`. -/
theorem severity_classifier_priority (message : String) :
    determine_severity_from_message message ∈ severityValues ∧
    (∀ wc ∈ criticalWords, strContains (lowerStr message) wc = true →
      determine_severity_from_message message = "critical") ∧
    ((criticalWords.any fun w => strContains (lowerStr message) w) = false →
      (errorWords.any fun w => strContains (lowerStr message) w) = true →
      determine_severity_from_message message = "error") ∧
    ((criticalWords.any fun w => strContains (lowerStr message) w) = false →
      (errorWords.any fun w => strContains (lowerStr message) w) = false →
      (warningWords.any fun w => strContains (lowerStr message) w) = true →
      determine_severity_from_message message = "warning") ∧
    ((criticalWords.any fun w => strContains (lowerStr message) w) = false →
      (errorWords.any fun w => strContains (lowerStr message) w) = false →
      (warningWords.any fun w => strContains (lowerStr message) w) = false →
      (successWords.any fun w => strContains (lowerStr message) w) = true →
      determine_severity_from_message message = "success") ∧
    ((criticalWords.any fun w => strContains (lowerStr message) w) = false →
      (errorWords.any fun w => strContains (lowerStr message) w) = false →
      (warningWords.any fun w => strContains (lowerStr message) w) = false →
      (successWords.any fun w => strContains (lowerStr message) w) = false →
      determine_severity_from_message message = "info") := by
  refine ⟨determine_severity_mem message, ?_, ?_, ?_, ?_, ?_⟩
  · intro wc hwc hc
    have hany : (criticalWords.any fun w => strContains (lowerStr message) w) = true :=
      List.any_eq_true.mpr ⟨wc, hwc, hc⟩
    simp only [determine_severity_from_message, hany]
    simp
  · intro h1 h2
    simp only [determine_severity_from_message, h1, h2]
    simp
  · intro h1 h2 h3
    simp only [determine_severity_from_message, h1, h2, h3]
    simp
  · intro h1 h2 h3 h4
    simp only [determine_severity_from_message, h1, h2, h3, h4]
    simp
  · intro h1 h2 h3 h4
    simp only [determine_severity_from_message, h1, h2, h3, h4]
    simp

/-- Witness for C2 at concrete messages: a message containing both the
critical-tier keyword `down` and the success-tier keyword `success` classifies
as `critical`. -/
theorem severity_classifier_priority_witness :
    determine_severity_from_message "System is down and recovery was a success" =
      "critical" :=
  (severity_classifier_priority "System is down and recovery was a success").2.1
    "down" (by decide) (by decide)

/-- Claim C3: `process_alarm` issues no collaborator call and no notification
when the alarm state is not `ALARM`; on an `ALARM` state it dispatches on
case-insensitive substring match of the alarm name in the fixed order
cpu-utilization-high, memory-utilization-high, disk-utilization-high,
unhealthy-targets; and when no pattern matches its whole trace is the single
no-remediation advisory notification. -/
theorem alarm_routing (asgName alarmName newState : String) (lookup : AsgLookupResult)
    (cmdOk : String → Bool) (health : String → Option (String × String)) :
    (newState ≠ "ALARM" →
      process_alarm asgName alarmName newState lookup cmdOk health = []) ∧
    (strContains (lowerStr alarmName) "cpu-utilization-high" = true →
      process_alarm asgName alarmName "ALARM" lookup cmdOk health =
        handle_high_cpu lookup asgName) ∧
    (strContains (lowerStr alarmName) "cpu-utilization-high" = false →
      strContains (lowerStr alarmName) "memory-utilization-high" = true →
      process_alarm asgName alarmName "ALARM" lookup cmdOk health =
        handle_high_memory lookup cmdOk) ∧
    (strContains (lowerStr alarmName) "cpu-utilization-high" = false →
      strContains (lowerStr alarmName) "memory-utilization-high" = false →
      strContains (lowerStr alarmName) "disk-utilization-high" = true →
      process_alarm asgName alarmName "ALARM" lookup cmdOk health =
        handle_high_disk lookup cmdOk) ∧
    (strContains (lowerStr alarmName) "cpu-utilization-high" = false →
      strContains (lowerStr alarmName) "memory-utilization-high" = false →
      strContains (lowerStr alarmName) "disk-utilization-high" = false →
      strContains (lowerStr alarmName) "unhealthy-targets" = true →
      process_alarm asgName alarmName "ALARM" lookup cmdOk health =
        handle_unhealthy_targets lookup health) ∧
    (strContains (lowerStr alarmName) "cpu-utilization-high" = false →
      strContains (lowerStr alarmName) "memory-utilization-high" = false →
      strContains (lowerStr alarmName) "disk-utilization-high" = false →
      strContains (lowerStr alarmName) "unhealthy-targets" = false →
      process_alarm asgName alarmName "ALARM" lookup cmdOk health =
        [.notify ("Alert: " ++ alarmName ++ " triggered but no remediation configured")]) := by
  refine ⟨?_, ?_, ?_, ?_, ?_, ?_⟩
  · intro h
    simp [process_alarm, h]
  · intro h1
    simp [process_alarm, h1]
  · intro h1 h2
    simp [process_alarm, h1, h2]
  · intro h1 h2 h3
    simp [process_alarm, h1, h2, h3]
  · intro h1 h2 h3 h4
    simp [process_alarm, h1, h2, h3, h4]
  · intro h1 h2 h3 h4
    simp [process_alarm, h1, h2, h3, h4]

/-- Witness for C3 at concrete inputs: an `OK`-state alarm produces no effect
at all, and a firing alarm matching no pattern produces exactly the advisory
notification. -/
theorem alarm_routing_witness :
    process_alarm "my-asg" "prod-cpu-utilization-high" "OK" .notFound
        (fun _ => true) (fun _ => none) = [] ∧
    process_alarm "my-asg" "some-other-alarm" "ALARM" .notFound
        (fun _ => true) (fun _ => none) =
      [.notify "Alert: some-other-alarm triggered but no remediation configured"] :=
  ⟨(alarm_routing "my-asg" "prod-cpu-utilization-high" "OK" .notFound
      (fun _ => true) (fun _ => none)).1 (by decide),
   (alarm_routing "my-asg" "some-other-alarm" "ALARM" .notFound
      (fun _ => true) (fun _ => none)).2.2.2.2.2
     (by decide) (by decide) (by decide) (by decide)⟩

theorem slack_status_valid (n : Notification) (o : Except String String) :
    ((send_slack_notification n o).status == "success" ||
      (send_slack_notification n o).status == "error" ||
      (send_slack_notification n o).status == "skipped") = true := by
  cases o <;> rfl

theorem discord_status_valid (n : Notification) (o : Except String String) :
    ((send_discord_notification n o).status == "success" ||
      (send_discord_notification n o).status == "error" ||
      (send_discord_notification n o).status == "skipped") = true := by
  cases o <;> rfl

theorem teams_status_valid (n : Notification) (o : Except String String) :
    ((send_teams_notification n o).status == "success" ||
      (send_teams_notification n o).status == "error" ||
      (send_teams_notification n o).status == "skipped") = true := by
  cases o <;> rfl

theorem pagerduty_status_valid (n : Notification) (o : Except String String) :
    ((send_pagerduty_notification n o).status == "success" ||
      (send_pagerduty_notification n o).status == "error" ||
      (send_pagerduty_notification n o).status == "skipped") = true := by
  simp only [send_pagerduty_notification]
  split_ifs <;> cases o <;> rfl

theorem sns_status_valid (n : Notification) (o : Except String String) :
    ((send_sns_notification n o).status == "success" ||
      (send_sns_notification n o).status == "error" ||
      (send_sns_notification n o).status == "skipped") = true := by
  cases o <;> rfl

theorem email_status_valid (n : Notification) (o : Except String String) :
    ((send_email_notification n o).status == "success" ||
      (send_email_notification n o).status == "error" ||
      (send_email_notification n o).status == "skipped") = true := by
  cases o <;> rfl

/-- Claim C4: each configured channel's fanout entry is a function of that
channel's own transport outcome alone (so a failure elsewhere cannot prevent
it), a channel with no configuration is omitted from the result mapping, the
set of result keys depends only on the configuration, and every entry carries
one of the three result statuses — the aggregate call is total and never
raises. -/
theorem fanout_isolation (cfg : ChannelConfig) (n : Notification) (o : Outcomes) :
    List.lookup "slack" (send_notifications cfg n o) =
      (if cfg.slackWebhookUrl != "" then some (send_slack_notification n o.slack)
       else none) ∧
    List.lookup "discord" (send_notifications cfg n o) =
      (if cfg.discordWebhookUrl != "" then some (send_discord_notification n o.discord)
       else none) ∧
    List.lookup "teams" (send_notifications cfg n o) =
      (if cfg.teamsWebhookUrl != "" then some (send_teams_notification n o.teams)
       else none) ∧
    List.lookup "pagerduty" (send_notifications cfg n o) =
      (if cfg.pagerdutyApiKey != "" && cfg.pagerdutyRoutingKey != "" then
        some (send_pagerduty_notification n o.pagerduty)
       else none) ∧
    List.lookup "sns" (send_notifications cfg n o) =
      (if cfg.snsTopicArn != "" then some (send_sns_notification n o.sns) else none) ∧
    List.lookup "email" (send_notifications cfg n o) =
      (if cfg.defaultEmail != "" then some (send_email_notification n o.email)
       else none) ∧
    (send_notifications cfg n o).map Prod.fst = channelKeys cfg ∧
    (send_notifications cfg n o).all
      (fun p => p.2.status == "success" || p.2.status == "error" ||
        p.2.status == "skipped") = true := by
  refine ⟨?_, ?_, ?_, ?_, ?_, ?_, ?_, ?_⟩ <;>
    · simp only [send_notifications, channelKeys]
      split_ifs <;>
        first
          | rfl
          | simp [List.all_append, slack_status_valid, discord_status_valid,
              teams_status_valid, pagerduty_status_valid, sns_status_valid,
              email_status_valid]

/-- Claim C6: the paging channel's result status is `skipped` exactly when the
notification's severity is outside `critical`/`error` and otherwise follows the
transport outcome (`success` or `error`, never `skipped`); the paging entry is
present in the fanout result exactly when both PagerDuty settings are
configured; the result keys do not depend on the severity; and no other
channel's delivery function ever reports `skipped`. -/
theorem pagerduty_gating (cfg : ChannelConfig) (n : Notification) (o : Outcomes) :
    (send_pagerduty_notification n o.pagerduty).status =
      (if n.severity == "critical" || n.severity == "error" then
        (match o.pagerduty with | .ok _ => "success" | .error _ => "error")
       else "skipped") ∧
    List.lookup "pagerduty" (send_notifications cfg n o) =
      (if cfg.pagerdutyApiKey != "" && cfg.pagerdutyRoutingKey != "" then
        some (send_pagerduty_notification n o.pagerduty)
       else none) ∧
    (send_notifications cfg n o).map Prod.fst = channelKeys cfg ∧
    ((send_slack_notification n o.slack).status == "skipped") = false ∧
    ((send_discord_notification n o.discord).status == "skipped") = false ∧
    ((send_teams_notification n o.teams).status == "skipped") = false ∧
    ((send_sns_notification n o.sns).status == "skipped") = false ∧
    ((send_email_notification n o.email).status == "skipped") = false := by
  obtain ⟨os, od, ot, op, osn, oe⟩ := o
  refine ⟨?_, ?_, ?_, ?_, ?_, ?_, ?_, ?_⟩
  · simp only [send_pagerduty_notification]
    split_ifs <;> cases op <;> rfl
  · simp only [send_notifications]
    split_ifs <;> rfl
  · simp only [send_notifications, channelKeys]
    split_ifs <;> rfl
  · cases os <;> rfl
  · cases od <;> rfl
  · cases ot <;> rfl
  · cases osn <;> rfl
  · cases oe <;> rfl

/-- Claim C10: `get_asg_instances` returns exactly the instance ids of the
members whose lifecycle state is `InService` (an id is returned iff some
member carries it in state `InService`, members in any other state are
excluded wherever they sit in the source list), and returns the empty list
when the group list is empty or the lookup raised. -/
theorem asg_inservice_filter (asg : AsgSnapshot) (e : String) :
    get_asg_instances (.found asg) =
      (asg.instances.filter fun i => i.lifecycleState == "InService").map
        (fun i => i.instanceId) ∧
    (∀ instanceId, instanceId ∈ get_asg_instances (.found asg) ↔
      ∃ m, m ∈ asg.instances ∧ m.lifecycleState = "InService" ∧
        m.instanceId = instanceId) ∧
    get_asg_instances .notFound = [] ∧
    get_asg_instances (.err e) = [] := by
  refine ⟨rfl, ?_, rfl, rfl⟩
  intro instanceId
  simp only [get_asg_instances, List.mem_map, List.mem_filter, beq_iff_eq]
  constructor
  · rintro ⟨m, ⟨hm, hl⟩, he⟩
    exact ⟨m, hm, hl, he⟩
  · rintro ⟨m, hm, hl, he⟩
    exact ⟨m, ⟨hm, hl⟩, he⟩

theorem records_fold_severity_mem (recs : List SnsRecord) (acc : Notification)
    (h : acc.severity ∈ severityValues) :
    (recs.foldl
      (fun acc r =>
        if r.eventSource == "aws:sns" then applyUpdate acc (parse_sns_message r.snsMessage)
        else acc)
      acc).severity ∈ severityValues := by
  induction recs generalizing acc with
  | nil => simpa using h
  | cons r rest ih =>
    simp only [List.foldl_cons]
    apply ih
    by_cases hr : (r.eventSource == "aws:sns") = true
    · simp [hr, applyUpdate, parse_sns_message, determine_severity_mem]
    · simpa [hr] using h

/-- Counterexample to C5 as stated: a direct invocation carrying the arbitrary
severity string `bogus` normalizes to a Notification whose severity is that
very string, not `info` and not one of the five defined values. -/
theorem severity_passthrough_counterexample :
    (parse_notification (.direct "hi" (some "bogus") none none none) "t").severity =
      "bogus" ∧
    "bogus" ∉ severityValues := by
  constructor
  · rfl
  · decide

/-- Claim C5 amended: normalization of SNS-record events, raw CloudWatch
alarms and unrecognized events always yields one of the five defined
severities (absent severities default to `info`), but the direct-invocation
path passes the supplied severity string through verbatim, so an arbitrary
inbound severity string survives into the Notification. -/
theorem severity_normalization_paths (now : String) :
    (∀ recs, (parse_notification (.records recs) now).severity ∈ severityValues) ∧
    (∀ alarmName newStateValue newStateReason,
      (parse_notification (.rawAlarm alarmName newStateValue newStateReason)
        now).severity ∈ severityValues) ∧
    (parse_notification .other now).severity ∈ severityValues ∧
    (∀ message severity title source metadata,
      (parse_notification (.direct message (some severity) title source metadata)
        now).severity = severity) ∧
    (∀ message title source metadata,
      (parse_notification (.direct message none title source metadata)
        now).severity = "info") := by
  refine ⟨?_, ?_, ?_, ?_, ?_⟩
  · intro recs
    exact records_fold_severity_mem recs _ (by simp [severityValues])
  · intro alarmName newStateValue newStateReason
    simp only [parse_notification, applyUpdate, parse_cloudwatch_alarm]
    split_ifs <;> simp [severityValues]
  · simp [parse_notification, severityValues]
  · intro message severity title source metadata
    rfl
  · intro message title source metadata
    rfl

/-- Counterexample to C7 as stated: the title built for a raw alarm is
prefixed `CloudWatch Alarm:`, not `Alarm:`. -/
theorem alarm_title_counterexample :
    (parse_notification
      (.rawAlarm "cpu-utilization-high" (some "ALARM") (some "threshold")) "t").title =
      "CloudWatch Alarm: cpu-utilization-high" ∧
    (parse_notification
      (.rawAlarm "cpu-utilization-high" (some "ALARM") (some "threshold")) "t").title ≠
      "Alarm: cpu-utilization-high" := by
  constructor
  · rfl
  · decide

/-- Claim C7 amended: normalizing a raw alarm with all three fields present
yields source `cloudwatch`, severity `critical` exactly when the state is
`ALARM` and `success` otherwise, title `CloudWatch Alarm: <name>`, and the
two-line message `State: <state>` newline `Reason: <reason>`. -/
theorem alarm_normalization (alarmName newState reason now : String) :
    (parse_notification (.rawAlarm alarmName (some newState) (some reason))
      now).source = "cloudwatch" ∧
    (parse_notification (.rawAlarm alarmName (some newState) (some reason))
      now).severity = (if newState == "ALARM" then "critical" else "success") ∧
    ((parse_notification (.rawAlarm alarmName (some newState) (some reason))
      now).severity = "critical" ↔ newState = "ALARM") ∧
    (parse_notification (.rawAlarm alarmName (some newState) (some reason))
      now).title = "CloudWatch Alarm: " ++ alarmName ∧
    (parse_notification (.rawAlarm alarmName (some newState) (some reason))
      now).message = "State: " ++ newState ++ "\nReason: " ++ reason := by
  refine ⟨rfl, rfl, ?_, rfl, rfl⟩
  simp only [parse_notification, applyUpdate, parse_cloudwatch_alarm]
  by_cases h : newState = "ALARM" <;> simp [h]

/-- Counterexample to C8 as stated: when the fleet lookup returns no matching
group, neither `handle_high_cpu` nor `handle_high_memory` sends any
notification — there is no advisory. -/
theorem fleet_absent_counterexample :
    notifs (handle_high_cpu .notFound "my-asg") = [] ∧
    notifs (handle_high_memory .notFound (fun _ => true)) = [] := by
  constructor <;> rfl

/-- Claim C8 amended: when the fleet lookup returns no matching group, no
remediation action raises or propagates a failure, but none sends an advisory
notification either: ScaleOut, ClearCache and CullUnhealthy return silently
after the lookup (their whole trace is the describe call — no mutation, no
command, no notification), while CleanDisk proceeds over the empty instance
list and sends its ordinary summary notification reporting 0 instances. -/
theorem fleet_absent_noop (asgName : String) (cmdOk : String → Bool)
    (health : String → Option (String × String)) :
    handle_high_cpu .notFound asgName = [.describeAsg] ∧
    handle_high_memory .notFound cmdOk = [.describeAsg] ∧
    handle_high_disk .notFound cmdOk = [.describeAsg, .notify (cleanDiskSummaryMsg 0)] ∧
    handle_unhealthy_targets .notFound health = [.describeAsg] := by
  refine ⟨rfl, rfl, rfl, rfl⟩

/-- Counterexample to C9 as stated: an invocation of the ClearCache action
against a fleet with no in-service member sends no summary notification at
all (the handler returns before the batch). -/
theorem clearcache_empty_counterexample :
    notifs (handle_high_memory (.found ⟨2, 4, [⟨"i-1", "Pending"⟩]⟩)
      (fun _ => true)) = [] := by
  rfl

/-- Claim C9 amended: the ClearCache action issues one command per in-service
instance whatever each command's outcome, and whenever the in-service instance
list is nonempty it sends exactly one summary notification after the batch
regardless of individual command failures; with no in-service instance it
returns without sending any notification. -/
theorem clearcache_summary (lookup : AsgLookupResult) (cmdOk : String → Bool) :
    commandTargets (handle_high_memory lookup cmdOk) = get_asg_instances lookup ∧
    ((get_asg_instances lookup).isEmpty = false →
      notifs (handle_high_memory lookup cmdOk) =
        [clearCacheSummaryMsg (get_asg_instances lookup).length]) ∧
    ((get_asg_instances lookup).isEmpty = true →
      notifs (handle_high_memory lookup cmdOk) = []) := by
  refine ⟨?_, ?_, ?_⟩
  · by_cases h : (get_asg_instances lookup).isEmpty
    · rw [List.isEmpty_iff] at h
      simp [handle_high_memory, commandTargets, h]
    · simp only [handle_high_memory, Bool.not_eq_true] at h ⊢
      rw [h]
      simp only [if_false, Bool.false_eq_true]
      simpa [commandTargets, commandTargets_append] using
        commandTargets_sendCommands (get_asg_instances lookup) clearCacheCommands cmdOk
  · intro h
    simp only [handle_high_memory, h]
    simp only [if_false, Bool.false_eq_true]
    simp [notifs, notifs_append, notifs_sendCommands]
  · intro h
    simp [handle_high_memory, notifs, h]

/-- Witness for C9 amended: with one in-service instance whose cache-clear
command fails, the command is still attempted and the single summary
notification is still sent; with one instance that is not in service, no
notification is sent. -/
theorem clearcache_summary_witness :
    commandTargets (handle_high_memory (.found ⟨2, 4, [⟨"i-1", "InService"⟩]⟩)
      (fun _ => false)) = ["i-1"] ∧
    notifs (handle_high_memory (.found ⟨2, 4, [⟨"i-1", "InService"⟩]⟩)
      (fun _ => false)) =
      ["Remediation: Cleared memory caches on 1 instances due to high memory usage"] ∧
    notifs (handle_high_memory (.found ⟨2, 4, [⟨"i-2", "Pending"⟩]⟩)
      (fun _ => true)) = [] :=
  ⟨(clearcache_summary (.found ⟨2, 4, [⟨"i-1", "InService"⟩]⟩) (fun _ => false)).1,
   (clearcache_summary (.found ⟨2, 4, [⟨"i-1", "InService"⟩]⟩) (fun _ => false)).2.1
     (by decide),
   (clearcache_summary (.found ⟨2, 4, [⟨"i-2", "Pending"⟩]⟩) (fun _ => true)).2.2
     (by decide)⟩
